import Mathlib

/-!
Verification of `src/libsyntax/ext/base.rs` (macro invocation dispatch and
fragment-polymorphic expansion).  The definitions below are a shallow
embedding of the Rust source: each Rust item is translated to a Lean
definition with the same name where Lean allows it.  Collaborator types that
live outside `src/` (the AST node definitions, spans, the sub-parser and the
recursive expander) are modelled from the spec, as noted on each definition.
-/

namespace LibSyntax

/-- Modelled from the spec: interned names are opaque comparable tokens
(spec section 6, "Tree/token representations"); `syntax_pos::Symbol` is not
under `src/`, so a symbol is embedded as its string. -/
abbrev Symbol := String

/-- Modelled from the spec: a source location with an attached chain of
expansion identities ("opaque comparable tokens", spec section 6).
`syntax_pos::Span` is not under `src/`; only its identity and its hygiene
context are observable here. -/
structure Span where
  lo : Nat
  hi : Nat
  ctxt : List Nat
deriving DecidableEq, Repr

/-- Modelled from the spec: `Span::apply_mark` pushes one expansion
identity onto the span's hygiene context (spec section 6,
"apply-identity-to-span(span, identity)"). -/
def Span.apply_mark (sp : Span) (m : Nat) : Span :=
  { sp with ctxt := m :: sp.ctxt }

/-- `ast::DUMMY_NODE_ID` (`u32::MAX` in the source). -/
def DUMMY_NODE_ID : Nat := 4294967295

/-- Modelled from the spec: the edition a definition was authored under
(spec section 3); `edition::Edition` is not under `src/`. -/
inductive Edition where
  | edition2015
  | edition2018
deriving DecidableEq, Repr

/-- Modelled from the spec: string-literal style (`ast::StrStyle`, not under
`src/`): cooked, or raw with a number of hash marks. -/
inductive StrStyle where
  | cooked
  | raw (hashes : Nat)
deriving DecidableEq, Repr

/-- Modelled from the spec: literal kinds (`ast::LitKind`, not under
`src/`).  The source matches on `Str` and `Err`; the remaining kinds are
collapsed into representative non-string constructors. -/
inductive LitKind where
  | str (s : Symbol) (style : StrStyle)
  | err (s : Symbol)
  | int (n : Nat)
  | boolean (b : Bool)
deriving DecidableEq, Repr

/-- Modelled from the spec: `ast::Lit` is a literal kind with its span. -/
structure Lit where
  node : LitKind
  span : Span
deriving DecidableEq, Repr

mutual
/-- Modelled from the spec: `ast::Expr` (not under `src/`): node id,
expression kind, span and attribute list (attributes opaque here). -/
inductive Expr where
  | mk (id : Nat) (node : ExprKind) (span : Span) (attrs : List Nat) : Expr

/-- Modelled from the spec: `ast::ExprKind` (not under `src/`).  The source
constructs `Err` and `Tup` and matches on `Lit` and `Err`; every other
expression kind is collapsed into `other`. -/
inductive ExprKind where
  | lit (l : Lit) : ExprKind
  | tup (elems : List Expr) : ExprKind
  | err : ExprKind
  | other (k : Nat) : ExprKind
end

def Expr.nodeId : Expr → Nat
  | .mk i _ _ _ => i

def Expr.node : Expr → ExprKind
  | .mk _ n _ _ => n

def Expr.span : Expr → Span
  | .mk _ _ sp _ => sp

def Expr.attrs : Expr → List Nat
  | .mk _ _ _ a => a

def Expr.withSpan : Expr → Span → Expr
  | .mk i n _ a, sp => .mk i n sp a

/-- Modelled from the spec: `ast::PatKind` (not under `src/`).  The source
constructs `Wild` and `Lit`; other pattern kinds are collapsed. -/
inductive PatKind where
  | wild : PatKind
  | lit (e : Expr) : PatKind
  | other (k : Nat) : PatKind

/-- Modelled from the spec: `ast::Pat` (not under `src/`). -/
structure Pat where
  id : Nat
  node : PatKind
  span : Span

mutual
/-- Modelled from the spec: `ast::Ty` (not under `src/`). -/
inductive Ty where
  | mk (id : Nat) (node : TyKind) (span : Span) : Ty

/-- Modelled from the spec: `ast::TyKind` (not under `src/`).  The source
constructs `Err` and `Tup`; other type kinds are collapsed. -/
inductive TyKind where
  | tup (elems : List Ty) : TyKind
  | err : TyKind
  | other (k : Nat) : TyKind
end

def Ty.nodeId : Ty → Nat
  | .mk i _ _ => i

def Ty.node : Ty → TyKind
  | .mk _ n _ => n

def Ty.span : Ty → Span
  | .mk _ _ sp => sp

/-- Modelled from the spec: `ast::StmtKind` (not under `src/`).  The source
constructs only expression statements; other statement kinds are
collapsed. -/
inductive StmtKind where
  | expr (e : Expr) : StmtKind
  | other (k : Nat) : StmtKind

/-- Modelled from the spec: `ast::Stmt` (not under `src/`). -/
structure Stmt where
  id : Nat
  node : StmtKind
  span : Span

/-- Modelled from the spec: items are opaque tree nodes here; the source
only moves them through lists, never inspects them. -/
abbrev Item := Nat

/-- Modelled from the spec: impl items are opaque tree nodes here. -/
abbrev ImplItem := Nat

/-- Modelled from the spec: trait items are opaque tree nodes here. -/
abbrev TraitItem := Nat

/-- Modelled from the spec: foreign items are opaque tree nodes here. -/
abbrev ForeignItem := Nat

/-- An expression kind is tagged as an error marker when it is `Err`
itself or a literal of kind `Err` (the two error forms the AST offers for
expressions, both matched by `expr_to_spanned_string` in the source). -/
def ExprKind.isErrMarker : ExprKind → Bool
  | .err => true
  | .lit l =>
    match l.node with
    | .err _ => true
    | _ => false
  | _ => false

/-- A string-literal expression kind. -/
def ExprKind.isStrLit : ExprKind → Bool
  | .lit l =>
    match l.node with
    | .str _ _ => true
    | _ => false
  | _ => false

/-- A pattern is tagged as an error marker only through an error-marked
literal expression: the AST's `PatKind` has no error constructor of its own
(the source's `DummyResult::raw_pat` takes no `is_error` flag, unlike
`raw_expr` and `raw_ty`). -/
def Pat.isErrMarker (p : Pat) : Bool :=
  match p.node with
  | .lit e => e.node.isErrMarker
  | _ => false

/-- A type kind tagged as an error marker (`TyKind::Err`). -/
def TyKind.isErrMarker : TyKind → Bool
  | .err => true
  | _ => false

/-! ### The macro definition catalog (`SyntaxExtension`) -/

/-- `MacroKind`: the different kinds of macro invocations that can be
resolved (source lines 575-584). -/
inductive MacroKind where
  | Bang
  | Attr
  | Derive
  | ProcMacroStub
deriving DecidableEq, Repr

/-- Modelled from the spec: hygiene transparency
(Opaque / SemiTransparent / Transparent, spec section 3);
`hygiene::Transparency` is not under `src/`. -/
inductive Transparency where
  | Transparent
  | SemiTransparent
  | Opaque
deriving DecidableEq, Repr

/-- `SyntaxExtension`: the closed set of macro-definition descriptors
(source lines 605-683).  Expander trait objects are opaque values external
to this core and are embedded as bare handles; the metadata fields are kept
with their source names and types. -/
inductive SyntaxExtension where
  | NonMacroAttr (mark_used : Bool)
  | MultiDecorator (expander : Nat)
  | MultiModifier (expander : Nat)
  | ProcMacro (expander : Nat) (allow_internal_unstable : Option (List Symbol))
      (edition : Edition)
  | AttrProcMacro (expander : Nat) (edition : Edition)
  | NormalTT (expander : Nat) (def_info : Option (Nat × Span))
      (allow_internal_unstable : Option (List Symbol)) ( allow_internal_unsafe : Bool)
      (local_inner_macros : Bool) (unstable_feature : Option (Symbol × Nat))
      (edition : Edition)
  | IdentTT (expander : Nat) (span : Option Span)
      (allow_internal_unstable : Option (List Symbol))
  | ProcMacroDerive (expander : Nat) (inert_attrs : List Symbol) (edition : Edition)
  | BuiltinDerive (expander : Nat)
  | DeclMacro (expander : Nat) (def_info : Option (Nat × Span))
      (is_transparent : Bool) (edition : Edition)

/-- `SyntaxExtension::kind`: which kind of macro calls this syntax
extension (source lines 687-703). -/
def SyntaxExtension.kind : SyntaxExtension → MacroKind
  | .DeclMacro _ _ _ _
  | .NormalTT _ _ _ _ _ _ _
  | .IdentTT _ _ _
  | .ProcMacro _ _ _ => .Bang
  | .NonMacroAttr _
  | .MultiDecorator _
  | .MultiModifier _
  | .AttrProcMacro _ _ => .Attr
  | .ProcMacroDerive _ _ _
  | .BuiltinDerive _ => .Derive

/-- `SyntaxExtension::default_transparency` (source lines 705-714). -/
def SyntaxExtension.default_transparency : SyntaxExtension → Transparency
  | .ProcMacro _ _ _
  | .AttrProcMacro _ _
  | .ProcMacroDerive _ _ _
  | .DeclMacro _ _ false _ => .Opaque
  | .DeclMacro _ _ true _ => .Transparent
  | _ => .SemiTransparent

/-- The ten variants of `SyntaxExtension`, with their payloads erased: used
to state that classification functions depend on the variant alone. -/
inductive ExtVariant where
  | nonMacroAttr
  | multiDecorator
  | multiModifier
  | procMacroFn
  | attrProc
  | normalTT
  | identTT
  | procDerive
  | builtinDerive
  | declMacroDef
deriving DecidableEq, Repr

/-- The variant tag of a descriptor. -/
def SyntaxExtension.variant : SyntaxExtension → ExtVariant
  | .NonMacroAttr _ => .nonMacroAttr
  | .MultiDecorator _ => .multiDecorator
  | .MultiModifier _ => .multiModifier
  | .ProcMacro _ _ _ => .procMacroFn
  | .AttrProcMacro _ _ => .attrProc
  | .NormalTT _ _ _ _ _ _ _ => .normalTT
  | .IdentTT _ _ _ => .identTT
  | .ProcMacroDerive _ _ _ => .procDerive
  | .BuiltinDerive _ => .builtinDerive
  | .DeclMacro _ _ _ _ => .declMacroDef

/-- The `is_transparent` flag of a declarative macro, `false` for every
other variant (which never consults it). -/
def SyntaxExtension.declTransparentFlag : SyntaxExtension → Bool
  | .DeclMacro _ _ t _ => t
  | _ => false

/-- The invocation-kind mapping exactly as the spec states it (section 4.3):
attribute-like variants map to `Attr`, derive-like variants to `Derive`, and
all token-tree and procedural-function variants to `Bang`.  Stated over the
payload-erased variant, so that agreement with `SyntaxExtension.kind` also
proves the kind is a function of the variant alone. -/
def kindSpec : ExtVariant → MacroKind
  | .nonMacroAttr | .multiDecorator | .multiModifier | .attrProc => .Attr
  | .procDerive | .builtinDerive => .Derive
  | .declMacroDef | .normalTT | .identTT | .procMacroFn => .Bang

/-- The default-transparency mapping exactly as the spec states it
(section 4.3): procedural variants and non-transparent declarative macros
are `Opaque`, transparent declarative macros are `Transparent`, everything
else is `SemiTransparent`. -/
def transparencySpec (v : ExtVariant) (is_transparent : Bool) : Transparency :=
  match v with
  | .procMacroFn | .attrProc | .procDerive => .Opaque
  | .declMacroDef => if is_transparent then .Transparent else .Opaque
  | _ => .SemiTransparent

/-! ### The fragment producer protocol (`MacResult`, `MacEager`, `DummyResult`) -/

/-- `make_stmts_default!`: wrap the producer's expression-query result as a
single expression-statement carrying the expression's own span, absent when
the expression is absent (source lines 317-325).  The macro expands against
`$me.make_expr()`; it is embedded as a function of that query's result, as
used both by the `MacResult` trait default and by `MacEager::make_stmts`. -/
def make_stmts_default (made_expr : Option Expr) : Option (List Stmt) :=
  made_expr.map fun e =>
    [{ id := DUMMY_NODE_ID, span := e.span, node := StmtKind.expr e }]

/-- `MacEager`: `MacResult` implementation for the common case where each
form of AST that might be returned is already built (source lines 370-403).
`SmallVec` is embedded as a list. -/
structure MacEager where
  expr : Option Expr := none
  pat : Option Pat := none
  items : Option (List Item) := none
  impl_items : Option (List ImplItem) := none
  trait_items : Option (List TraitItem) := none
  foreign_items : Option (List ForeignItem) := none
  stmts : Option (List Stmt) := none
  ty : Option Ty := none

/-- `MacEager::make_expr` (source lines 406-408). -/
def MacEager.make_expr (me : MacEager) : Option Expr :=
  me.expr

/-- `MacEager::make_items` (source lines 410-412). -/
def MacEager.make_items (me : MacEager) : Option (List Item) :=
  me.items

/-- `MacEager::make_impl_items` (source lines 414-416). -/
def MacEager.make_impl_items (me : MacEager) : Option (List ImplItem) :=
  me.impl_items

/-- `MacEager::make_trait_items` (source lines 418-420). -/
def MacEager.make_trait_items (me : MacEager) : Option (List TraitItem) :=
  me.trait_items

/-- `MacEager::make_foreign_items` (source lines 422-424). -/
def MacEager.make_foreign_items (me : MacEager) : Option (List ForeignItem) :=
  me.foreign_items

/-- `MacEager::make_stmts` (source lines 426-431): when the `stmts` field
is absent or holds an empty list (`self.stmts.as_ref().map_or(0, |s|
s.len())` is `0`), fall back to `make_stmts_default!`; otherwise return the
field. -/
def MacEager.make_stmts (me : MacEager) : Option (List Stmt) :=
  match (match me.stmts with | none => 0 | some s => s.length) with
  | 0 => make_stmts_default me.make_expr
  | _ + 1 => me.stmts

/-- `MacEager::make_pat` (source lines 433-447): an explicit pattern wins;
otherwise a literal expression is wrapped as a literal pattern with the
expression's span; otherwise absent. -/
def MacEager.make_pat (me : MacEager) : Option Pat :=
  match me.pat with
  | some p => some p
  | none =>
    match me.expr with
    | some e =>
      match e.node with
      | ExprKind.lit _ => some { id := DUMMY_NODE_ID, span := e.span, node := PatKind.lit e }
      | _ => none
    | none => none

/-- `MacEager::make_ty` (source lines 449-451). -/
def MacEager.make_ty (me : MacEager) : Option Ty :=
  me.ty

/-- `DummyResult`: fill-in macro expansion result, to allow compilation to
continue after hitting errors (source lines 456-461). -/
structure DummyResult where
  expr_only : Bool
  is_error : Bool
  span : Span
deriving DecidableEq, Repr

/-- `DummyResult::any`: a default `MacResult` that can be anything
(source lines 468-470). -/
def DummyResult.any (span : Span) : DummyResult :=
  { expr_only := false, is_error := true, span }

/-- `DummyResult::any_valid`: same as `any`, but a valid fragment, not an
error (source lines 473-475). -/
def DummyResult.any_valid (span : Span) : DummyResult :=
  { expr_only := false, is_error := false, span }

/-- `DummyResult::expr`: a default `MacResult` that can only be an
expression (source lines 482-484). -/
def DummyResult.expr (span : Span) : DummyResult :=
  { expr_only := true, is_error := true, span }

/-- `DummyResult::raw_expr`: a plain dummy expression, `ExprKind::Err` when
erroneous and the empty tuple otherwise (source lines 487-494). -/
def DummyResult.raw_expr (sp : Span) ( is_error : Bool) : Expr :=
  .mk DUMMY_NODE_ID (if is_error then ExprKind.err else ExprKind.tup []) sp []

/-- `DummyResult::raw_pat`: a plain dummy pattern — always the wildcard,
with no error variant (source lines 497-503). -/
def DummyResult.raw_pat (sp : Span) : Pat :=
  { id := DUMMY_NODE_ID, node := PatKind.wild, span := sp }

/-- `DummyResult::raw_ty`: a plain dummy type, `TyKind::Err` when erroneous
and the empty tuple type otherwise (source lines 506-512). -/
def DummyResult.raw_ty (sp : Span) ( is_error : Bool) : Ty :=
  .mk DUMMY_NODE_ID (if is_error then TyKind.err else TyKind.tup []) sp

/-- `DummyResult::make_expr` (source lines 516-518). -/
def DummyResult.make_expr (d : DummyResult) : Option Expr :=
  some (DummyResult.raw_expr d.span d.is_error)

/-- `DummyResult::make_pat` (source lines 520-522). -/
def DummyResult.make_pat (d : DummyResult) : Option Pat :=
  some (DummyResult.raw_pat d.span)

/-- `DummyResult::make_items` (source lines 524-531). -/
def DummyResult.make_items (d : DummyResult) : Option (List Item) :=
  if d.expr_only then none else some []

/-- `DummyResult::make_impl_items` (source lines 533-539). -/
def DummyResult.make_impl_items (d : DummyResult) : Option (List ImplItem) :=
  if d.expr_only then none else some []

/-- `DummyResult::make_trait_items` (source lines 541-547). -/
def DummyResult.make_trait_items (d : DummyResult) : Option (List TraitItem) :=
  if d.expr_only then none else some []

/-- `DummyResult::make_foreign_items` (source lines 549-555). -/
def DummyResult.make_foreign_items (d : DummyResult) : Option (List ForeignItem) :=
  if d.expr_only then none else some []

/-- `DummyResult::make_stmts` (source lines 557-563): one statement
wrapping the dummy expression, at the producer's span. -/
def DummyResult.make_stmts (d : DummyResult) : Option (List Stmt) :=
  some [{ id := DUMMY_NODE_ID,
          node := StmtKind.expr (DummyResult.raw_expr d.span d.is_error),
          span := d.span }]

/-- `DummyResult::make_ty` (source lines 565-567). -/
def DummyResult.make_ty (d : DummyResult) : Option Ty :=
  some (DummyResult.raw_ty d.span d.is_error)

/-- A concrete span for counterexamples and witnesses. -/
def sp0 : Span := { lo := 0, hi := 1, ctxt := [] }

/-- C1: for every macro-definition descriptor, `kind()` agrees with the
spec's mapping applied to the payload-erased variant tag, hence it is a pure
function of the variant alone (stability across repeated calls is immediate:
`kind` borrows the descriptor immutably and the embedding is pure). -/
theorem SyntaxExtension.kind_follows_variant (ext : SyntaxExtension) :
    ext.kind = kindSpec ext.variant := by
  cases ext <;> rfl

/-- C9: for every macro-definition descriptor, `default_transparency()`
agrees with the spec's mapping applied to the variant tag and the
declarative macro's `is_transparent` flag: procedural variants and
non-transparent declarative macros are Opaque, transparent declarative
macros are Transparent, all remaining (legacy/builtin) variants are
SemiTransparent. -/
theorem SyntaxExtension.transparency_follows_variant (ext : SyntaxExtension) :
    ext.default_transparency = transparencySpec ext.variant ext.declTransparentFlag := by
  cases ext with
  | DeclMacro e d t ed => cases t <;> rfl
  | _ => rfl

/-- A literal expression kind. -/
def ExprKind.isLit : ExprKind → Bool
  | .lit _ => true
  | _ => false

/-- A concrete literal expression for witnesses. -/
def litE0 : Expr := .mk 0 (ExprKind.lit { node := LitKind.int 1, span := sp0 }) sp0 []

/-- C2 counterexample: in the erroneous flavor, the pattern query returns a
fragment, but that fragment is the wildcard pattern, which is not tagged as
an error marker — so "every shape query that returns a fragment returns one
tagged as an error marker" fails at the pattern query. -/
theorem dummy_erroneous_pat_not_err_marker :
    DummyResult.make_pat (DummyResult.any sp0)
      = some { id := DUMMY_NODE_ID, node := PatKind.wild, span := sp0 }
    ∧ Pat.isErrMarker { id := DUMMY_NODE_ID, node := PatKind.wild, span := sp0 } = false :=
  ⟨rfl, rfl⟩

/-- C2 (amended): in the erroneous flavor, the expression, type, and
statement-list queries return fragments tagged as error markers, while the
pattern query returns the wildcard pattern and the four list queries return
empty lists; in the valid flavor, the item-list, impl-item-list,
trait-item-list and foreign-item-list queries return empty lists and the
statement-list query returns a single unit-tuple expression-statement —
never absent. -/
theorem dummy_result_fragment_shapes (sp : Span) :
    DummyResult.make_expr (DummyResult.any sp) = some (DummyResult.raw_expr sp true)
    ∧ (DummyResult.raw_expr sp true).node.isErrMarker = true
    ∧ DummyResult.make_ty (DummyResult.any sp) = some (DummyResult.raw_ty sp true)
    ∧ (DummyResult.raw_ty sp true).node.isErrMarker = true
    ∧ DummyResult.make_stmts (DummyResult.any sp)
        = some [{ id := DUMMY_NODE_ID,
                  node := StmtKind.expr (DummyResult.raw_expr sp true), span := sp }]
    ∧ DummyResult.make_pat (DummyResult.any sp) = some (DummyResult.raw_pat sp)
    ∧ (DummyResult.raw_pat sp).node = PatKind.wild
    ∧ DummyResult.make_items (DummyResult.any sp) = some []
    ∧ DummyResult.make_impl_items (DummyResult.any sp) = some []
    ∧ DummyResult.make_trait_items (DummyResult.any sp) = some []
    ∧ DummyResult.make_foreign_items (DummyResult.any sp) = some []
    ∧ DummyResult.make_items (DummyResult.any_valid sp) = some []
    ∧ DummyResult.make_impl_items (DummyResult.any_valid sp) = some []
    ∧ DummyResult.make_trait_items (DummyResult.any_valid sp) = some []
    ∧ DummyResult.make_foreign_items (DummyResult.any_valid sp) = some []
    ∧ DummyResult.make_stmts (DummyResult.any_valid sp)
        = some [{ id := DUMMY_NODE_ID,
                  node := StmtKind.expr (DummyResult.raw_expr sp false), span := sp }]
    ∧ (DummyResult.raw_expr sp false).node = ExprKind.tup [] :=
  ⟨rfl, rfl, rfl, rfl, rfl, rfl, rfl, rfl, rfl, rfl, rfl, rfl, rfl, rfl, rfl, rfl, rfl⟩

/-- C3 counterexample: on the expression-only flavor, the statement-list
query is not refused — it yields one statement wrapping the error
expression, refuting "every other shape query returns absent". -/
theorem dummy_expr_only_stmts_present :
    DummyResult.make_stmts (DummyResult.expr sp0)
      = some [{ id := DUMMY_NODE_ID,
                node := StmtKind.expr (DummyResult.raw_expr sp0 true), span := sp0 }]
    ∧ DummyResult.make_stmts (DummyResult.expr sp0) ≠ none :=
  ⟨rfl, fun h => Option.noConfusion h⟩

/-- C3 (amended): the expression-only flavor refuses exactly the four
declaration-list queries (item-list, impl-item-list, trait-item-list,
foreign-item-list); the expression, pattern, statement-list and type
queries still yield fragments. -/
theorem dummy_expr_only_capabilities (sp : Span) :
    DummyResult.make_items (DummyResult.expr sp) = none
    ∧ DummyResult.make_impl_items (DummyResult.expr sp) = none
    ∧ DummyResult.make_trait_items (DummyResult.expr sp) = none
    ∧ DummyResult.make_foreign_items (DummyResult.expr sp) = none
    ∧ DummyResult.make_expr (DummyResult.expr sp) = some (DummyResult.raw_expr sp true)
    ∧ DummyResult.make_pat (DummyResult.expr sp) = some (DummyResult.raw_pat sp)
    ∧ DummyResult.make_stmts (DummyResult.expr sp)
        = some [{ id := DUMMY_NODE_ID,
                  node := StmtKind.expr (DummyResult.raw_expr sp true), span := sp }]
    ∧ DummyResult.make_ty (DummyResult.expr sp) = some (DummyResult.raw_ty sp true) :=
  ⟨rfl, rfl, rfl, rfl, rfl, rfl, rfl, rfl⟩

/-- C5: on a producer with no explicit statement list, the statement-list
query yields exactly one expression-statement wrapping the expression
query's result, carrying the expression's own span, and yields absent when
no expression is available either. -/
theorem MacEager.make_stmts_fallback (me : MacEager) (h : me.stmts = none) :
    (∀ e, me.expr = some e →
      me.make_stmts
        = some [{ id := DUMMY_NODE_ID, span := e.span, node := StmtKind.expr e }])
    ∧ (me.expr = none → me.make_stmts = none) := by
  constructor
  · intro e he
    simp [MacEager.make_stmts, MacEager.make_expr, h, he, make_stmts_default]
  · intro he
    simp [MacEager.make_stmts, MacEager.make_expr, h, he, make_stmts_default]

/-- C5 witness: a producer holding only the literal expression `1`. -/
theorem MacEager.make_stmts_fallback_witness :
    ({ expr := some litE0 } : MacEager).stmts = none
    ∧ MacEager.make_stmts { expr := some litE0 }
        = some [{ id := DUMMY_NODE_ID, span := litE0.span, node := StmtKind.expr litE0 }] :=
  ⟨rfl, (MacEager.make_stmts_fallback { expr := some litE0 } rfl).1 litE0 rfl⟩

/-- C6: on a producer with no explicit pattern, the pattern query wraps a
literal expression as a literal pattern with the expression's own span, and
is absent for a non-literal expression or no expression at all. -/
theorem MacEager.make_pat_from_literal (me : MacEager) (h : me.pat = none) :
    (∀ e l, me.expr = some e → e.node = ExprKind.lit l →
      me.make_pat = some { id := DUMMY_NODE_ID, span := e.span, node := PatKind.lit e })
    ∧ (∀ e, me.expr = some e → e.node.isLit = false → me.make_pat = none)
    ∧ (me.expr = none → me.make_pat = none) := by
  refine ⟨?_, ?_, ?_⟩
  · intro e l he hl
    simp [MacEager.make_pat, h, he, hl]
  · intro e he hnl
    cases hn : e.node with
    | lit l => rw [hn] at hnl; simp [ExprKind.isLit] at hnl
    | tup es => simp [MacEager.make_pat, h, he, hn]
    | err => simp [MacEager.make_pat, h, he, hn]
    | other k => simp [MacEager.make_pat, h, he, hn]
  · intro he
    simp [MacEager.make_pat, h, he]

/-- C6 witness: a producer holding only the literal expression `1` answers
the pattern query with a literal pattern at the expression's span. -/
theorem MacEager.make_pat_from_literal_witness :
    ({ expr := some litE0 } : MacEager).pat = none
    ∧ MacEager.make_pat { expr := some litE0 }
        = some { id := DUMMY_NODE_ID, span := litE0.span, node := PatKind.lit litE0 } :=
  ⟨rfl, (MacEager.make_pat_from_literal { expr := some litE0 } rfl).1 litE0
          { node := LitKind.int 1, span := sp0 } rfl rfl⟩

/-- C10: a producer whose statement-list field was explicitly set to the
empty list behaves exactly like one with the field unset: the query falls
back to wrapping the expression, and is absent when there is no
expression. -/
theorem MacEager.make_stmts_ignores_explicit_empty (me : MacEager)
    (h : me.stmts = some []) :
    me.make_stmts = make_stmts_default me.make_expr
    ∧ (∀ e, me.expr = some e →
        me.make_stmts
          = some [{ id := DUMMY_NODE_ID, span := e.span, node := StmtKind.expr e }])
    ∧ (me.expr = none → me.make_stmts = none) := by
  refine ⟨?_, ?_, ?_⟩
  · simp [MacEager.make_stmts, h]
  · intro e he
    simp [MacEager.make_stmts, MacEager.make_expr, h, he, make_stmts_default]
  · intro he
    simp [MacEager.make_stmts, MacEager.make_expr, h, he, make_stmts_default]

/-- C10 witness: with `stmts` explicitly the empty list and no expression,
the statement-list query is absent — indistinguishable from unset. -/
theorem MacEager.make_stmts_ignores_explicit_empty_witness :
    ({ stmts := some [] } : MacEager).stmts = some []
    ∧ MacEager.make_stmts { stmts := some [] } = none :=
  ⟨rfl, (MacEager.make_stmts_ignores_explicit_empty { stmts := some [] } rfl).2.2 rfl⟩

/-! ### Expansion context, string extraction and the argument helpers -/

/-- Modelled from the spec: a non-fatal diagnostic under construction
(`errors::DiagnosticBuilder`, not under `src/`): a location and a
message. -/
structure DiagnosticBuilder where
  span : Span
  msg : String
deriving DecidableEq, Repr

/-- The expansion context (`ExtCtxt`, source lines 809-816), restricted to
the state the verified operations consult: the current expansion identity
(`current_expansion.mark`) and the recursive sub-expander
(`cx.expander().visit_expr`, an external collaborator — modelled from the
spec as an opaque expression transformer).  Diagnostics are not stored in
the context but returned explicitly by each embedded operation. -/
structure ExtCtxt where
  mark : Nat
  expander : Expr → Expr

/-- `struct_span_err` (source lines 894-899): build, but do not yet emit,
a non-fatal diagnostic. -/
def ExtCtxt.struct_span_err (_cx : ExtCtxt) (sp : Span) (msg : String) :
    DiagnosticBuilder :=
  { span := sp, msg := msg }

/-- The sub-expansion step of `expr_to_spanned_string` (source lines
993-997): refresh the expression's span with the current expansion
identity, then fully expand the expression. -/
def ExtCtxt.expandInput (cx : ExtCtxt) (e : Expr) : Expr :=
  cx.expander (e.withSpan (e.span.apply_mark cx.mark))

/-- `expr_to_spanned_string` (source lines 988-1007): extract a string
literal from the macro-expanded form of `expr`.  `Except.error none` means
the input already carried an error marker and no fresh diagnostic is
built. -/
def expr_to_spanned_string (cx : ExtCtxt) (expr : Expr) (err_msg : String) :
    Except (Option DiagnosticBuilder) (Span × Symbol × StrStyle) :=
  match (cx.expandInput expr).node with
  | ExprKind.lit l =>
    match l.node with
    | LitKind.str s style => Except.ok ((cx.expandInput expr).span, s, style)
    | LitKind.err _ => Except.error none
    | _ => Except.error (some (cx.struct_span_err l.span err_msg))
  | ExprKind.err => Except.error none
  | _ => Except.error (some (cx.struct_span_err (cx.expandInput expr).span err_msg))

/-- `expr_to_string` (source lines 1009-1015): emit the pending diagnostic
if one was built, and keep only the literal's value and style.  The second
component is the list of diagnostics actually emitted. -/
def expr_to_string (cx : ExtCtxt) (expr : Expr) (err_msg : String) :
    Option (Symbol × StrStyle) × List DiagnosticBuilder :=
  match expr_to_spanned_string cx expr err_msg with
  | Except.ok (_, s, style) => (some (s, style), [])
  | Except.error none => (none, [])
  | Except.error (some d) => (none, [d])

/-- Modelled from the spec: one token tree of the raw macro input as the
argument-extraction helpers consume it through the sub-parser (spec
section 4.4, "acquire a sub-parser over a raw token sequence"): either a
token tree that parses as one expression, or a comma separator. -/
inductive PToken where
  | expr (e : Expr)
  | comma

/-- Modelled from the spec: the outcome of an argument-extraction helper —
a value together with the non-fatal diagnostics emitted along the way, or
a fatal abort (`panictry!` on a parse failure unwinds the session: spec
section 4.4, "report a fatal error (unwinds compilation)"). -/
inductive ParseOutcome (α : Type) where
  | ok (value : α) (emitted : List DiagnosticBuilder)
  | fatal (emitted : List DiagnosticBuilder)

/-- Modelled from the spec: `Parser::eat(Comma)` — consume one leading
comma separator, reporting whether one was present. -/
def eatComma : List PToken → Bool × List PToken
  | PToken.comma :: rest => (true, rest)
  | ts => (false, ts)

/-- The "takes 1 argument" diagnostic of `get_single_str_from_tts`
(source lines 1040 and 1047). -/
def takesOneArgDiag (sp : Span) (nm : String) : DiagnosticBuilder :=
  { span := sp, msg := nm ++ " takes 1 argument" }

/-- The "expected token: `,`" diagnostic of `get_exprs_from_tts`
(source line 1069). -/
def expectedCommaDiag (sp : Span) : DiagnosticBuilder :=
  { span := sp, msg := "expected token: `,`" }

/-- Modelled from the spec: the diagnostic a failing `parse_expr` emits
before `panictry!` unwinds the session. -/
def parseFailDiag (sp : Span) : DiagnosticBuilder :=
  { span := sp, msg := "expected expression" }

/-- `get_single_str_from_tts` (source lines 1033-1052) over the modelled
sub-parser: an empty input emits "takes 1 argument" and returns absent;
otherwise one expression is parsed (a leading separator is a parse failure,
which `panictry!` turns fatal), one trailing comma is eaten, a further
unconsumed token emits "takes 1 argument" without discarding the result,
and the parsed expression goes through `expr_to_string`. -/
def get_single_str_from_tts (cx : ExtCtxt) (sp : Span) (tts : List PToken)
    (nm : String) : ParseOutcome (Option String) :=
  match tts with
  | [] => ParseOutcome.ok none [takesOneArgDiag sp nm]
  | PToken.comma :: _ => ParseOutcome.fatal [parseFailDiag sp]
  | PToken.expr e :: rest =>
    let rest := (eatComma rest).2
    let extra : List DiagnosticBuilder :=
      match rest with
      | [] => []
      | _ :: _ => [takesOneArgDiag sp nm]
    match expr_to_string cx e "argument must be a string literal" with
    | (some (s, _), ds) => ParseOutcome.ok (some s) (extra ++ ds)
    | (none, ds) => ParseOutcome.ok none (extra ++ ds)

/-- The loop of `get_exprs_from_tts` (source lines 1061-1072) over the
modelled sub-parser, carrying the expressions accumulated so far: each
round parses one expression (a parse failure, fatal through `panictry!`,
when the input starts with a separator), expands it, pushes it, and
continues past a single comma; an expression followed by neither a comma
nor the end of input emits "expected token: `,`" and discards the partial
list. -/
def get_exprs_loop (cx : ExtCtxt) (sp : Span) :
    List PToken → List Expr → ParseOutcome (Option (List Expr))
  | [], es => ParseOutcome.ok (some es) []
  | PToken.comma :: _, _ => ParseOutcome.fatal [parseFailDiag sp]
  | [PToken.expr e], es => ParseOutcome.ok (some (es ++ [cx.expander e])) []
  | PToken.expr e :: PToken.comma :: rest, es =>
    get_exprs_loop cx sp rest (es ++ [cx.expander e])
  | PToken.expr _ :: PToken.expr _ :: _, _ =>
    ParseOutcome.ok none [expectedCommaDiag sp]

/-- `get_exprs_from_tts` (source lines 1056-1074): extract comma-separated
expressions, starting from an empty accumulator. -/
def get_exprs_from_tts (cx : ExtCtxt) (sp : Span) (tts : List PToken) :
    ParseOutcome (Option (List Expr)) :=
  get_exprs_loop cx sp tts []

/-- A well-formed comma-separated input: one expression token tree per
element, single comma separators, no trailing separator. -/
def commaSeparated : List Expr → List PToken
  | [] => []
  | [e] => [PToken.expr e]
  | e :: rest => PToken.expr e :: PToken.comma :: commaSeparated rest

/-- On a well-formed comma-separated input the loop returns the
accumulator extended with the expanded elements and emits nothing. -/
theorem get_exprs_loop_commaSeparated (cx : ExtCtxt) (sp : Span) :
    ∀ (exprs acc : List Expr),
      get_exprs_loop cx sp (commaSeparated exprs) acc
        = ParseOutcome.ok (some (acc ++ exprs.map cx.expander)) [] := by
  intro exprs
  induction exprs with
  | nil => intro acc; simp [commaSeparated, get_exprs_loop]
  | cons e rest ih =>
    intro acc
    cases rest with
    | nil => simp [commaSeparated, get_exprs_loop]
    | cons e2 rest2 =>
      calc get_exprs_loop cx sp (commaSeparated (e :: e2 :: rest2)) acc
          = get_exprs_loop cx sp (commaSeparated (e2 :: rest2))
              (acc ++ [cx.expander e]) := rfl
        _ = ParseOutcome.ok
              (some ((acc ++ [cx.expander e]) ++ (e2 :: rest2).map cx.expander)) [] :=
            ih (acc ++ [cx.expander e])
        _ = ParseOutcome.ok (some (acc ++ (e :: e2 :: rest2).map cx.expander)) [] := by
            simp [List.append_assoc]

/-- A concrete expansion context for counterexamples and witnesses: the
root expansion identity and the identity sub-expander. -/
def cx0 : ExtCtxt := { mark := 0, expander := fun e => e }

/-- A second concrete literal expression. -/
def litE1 : Expr := .mk 0 (ExprKind.lit { node := LitKind.int 3, span := sp0 }) sp0 []

/-- A concrete string-literal expression builder. -/
def strE (s : String) : Expr :=
  .mk 0 (ExprKind.lit { node := LitKind.str s StrStyle.cooked, span := sp0 }) sp0 []

/-- A concrete error-marker expression. -/
def errE0 : Expr := .mk 0 ExprKind.err sp0 []

/-- A concrete non-string, non-error expression. -/
def intE0 : Expr := .mk 0 (ExprKind.lit { node := LitKind.int 7, span := sp0 }) sp0 []

/-- C7 counterexample: on the input `1, , 3` (an expression, a separator,
a stray separator, an expression) the helper aborts with a fatal parse
failure; it does not emit a non-fatal diagnostic and return absent. -/
theorem get_exprs_double_comma_fatal :
    get_exprs_from_tts cx0 sp0
        [PToken.expr litE0, PToken.comma, PToken.comma, PToken.expr litE1]
      = ParseOutcome.fatal [parseFailDiag sp0]
    ∧ ∀ ds, get_exprs_from_tts cx0 sp0
        [PToken.expr litE0, PToken.comma, PToken.comma, PToken.expr litE1]
        ≠ ParseOutcome.ok none ds := by
  refine ⟨rfl, ?_⟩
  intro ds h
  have h' : ParseOutcome.fatal (α := Option (List Expr)) [parseFailDiag sp0]
      = ParseOutcome.ok none ds := h
  exact ParseOutcome.noConfusion h'

/-- C7 (amended): a well-formed input of comma-separated expressions
yields exactly those expressions (expanded) with no diagnostic; an
expression followed by another expression with no separator between them
emits "expected token: `,`" and returns absent, the partial list
discarded; but an input in which a separator stands where an expression is
expected (such as `1, , 3`) aborts with a fatal parse failure instead of
returning absent. -/
theorem get_exprs_spec (cx : ExtCtxt) (sp : Span) (exprs : List Expr)
    (e1 e2 : Expr) :
    get_exprs_from_tts cx sp (commaSeparated exprs)
      = ParseOutcome.ok (some (exprs.map cx.expander)) []
    ∧ get_exprs_from_tts cx sp [PToken.expr e1, PToken.expr e2]
      = ParseOutcome.ok none [expectedCommaDiag sp]
    ∧ get_exprs_from_tts cx sp
        [PToken.expr e1, PToken.comma, PToken.comma, PToken.expr e2]
      = ParseOutcome.fatal [parseFailDiag sp] := by
  refine ⟨?_, rfl, rfl⟩
  have h := get_exprs_loop_commaSeparated cx sp exprs []
  simpa [get_exprs_from_tts] using h

/-- C4 counterexample: on the input `"a", "b"` the helper emits the
non-fatal "takes 1 argument" diagnostic but still returns the first
string's value — the result is present, not absent. -/
theorem get_single_str_two_literals_present :
    get_single_str_from_tts cx0 sp0
        [PToken.expr (strE "a"), PToken.comma, PToken.expr (strE "b")] "m"
      = ParseOutcome.ok (some "a") [takesOneArgDiag sp0 "m"]
    ∧ ∀ ds, get_single_str_from_tts cx0 sp0
        [PToken.expr (strE "a"), PToken.comma, PToken.expr (strE "b")] "m"
        ≠ ParseOutcome.ok none ds := by
  refine ⟨rfl, ?_⟩
  intro ds h
  have h' : ParseOutcome.ok (some "a") [takesOneArgDiag sp0 "m"]
      = ParseOutcome.ok (none : Option String) ds := h
  injection h' with h1 h2
  exact Option.noConfusion h1

/-- C4 (amended): with the sub-expansion leaving expressions unchanged,
a zero-token input emits one "takes 1 argument" diagnostic and returns
absent; a single string-literal input succeeds with that string's value
and emits nothing; two comma-separated string literals emit one "takes 1
argument" diagnostic but still return the first string's value. -/
theorem get_single_str_spec (cx : ExtCtxt) (hid : ∀ e, cx.expander e = e)
    (sp sp1 sp2 : Span) (nm s1 s2 : String) :
    get_single_str_from_tts cx sp [] nm
      = ParseOutcome.ok none [takesOneArgDiag sp nm]
    ∧ get_single_str_from_tts cx sp
        [PToken.expr (.mk 0 (ExprKind.lit { node := LitKind.str s1 StrStyle.cooked, span := sp1 }) sp1 [])]
        nm
      = ParseOutcome.ok (some s1) []
    ∧ get_single_str_from_tts cx sp
        [PToken.expr (.mk 0 (ExprKind.lit { node := LitKind.str s1 StrStyle.cooked, span := sp1 }) sp1 []),
         PToken.comma,
         PToken.expr (.mk 0 (ExprKind.lit { node := LitKind.str s2 StrStyle.cooked, span := sp2 }) sp2 [])]
        nm
      = ParseOutcome.ok (some s1) [takesOneArgDiag sp nm] := by
  have key : ∀ (s : String) (spl : Span),
      expr_to_string cx
          (.mk 0 (ExprKind.lit { node := LitKind.str s StrStyle.cooked, span := spl }) spl [])
          "argument must be a string literal"
        = (some (s, StrStyle.cooked), []) := by
    intro s spl
    unfold expr_to_string expr_to_spanned_string ExtCtxt.expandInput
    rw [hid]
    rfl
  refine ⟨rfl, ?_, ?_⟩
  · simp only [get_single_str_from_tts, eatComma]
    rw [key s1 sp1]
    rfl
  · simp only [get_single_str_from_tts, eatComma]
    rw [key s1 sp1]
    rfl

/-- C4 witness: the amended theorem at the concrete context `cx0` (whose
sub-expander is the identity), on the single input `"a"`. -/
theorem get_single_str_spec_witness :
    (∀ e, cx0.expander e = e)
    ∧ get_single_str_from_tts cx0 sp0
        [PToken.expr (.mk 0 (ExprKind.lit { node := LitKind.str "a" StrStyle.cooked, span := sp0 }) sp0 [])]
        "m"
      = ParseOutcome.ok (some "a") [] :=
  ⟨fun _ => rfl,
    (get_single_str_spec cx0 (fun _ => rfl) sp0 sp0 sp0 "m" "a" "b").2.1⟩

/-- C8: after sub-expansion, an input already carrying an error marker
(`ExprKind::Err`, or a literal of kind `Err`) yields an absent result with
no new diagnostic emitted; an expanded input that is neither a string
literal nor an error marker yields an absent result with exactly one fresh
diagnostic carrying the caller's message. -/
theorem expr_to_string_err_propagation (cx : ExtCtxt) (e : Expr) (msg : String) :
    ((cx.expandInput e).node.isErrMarker = true →
      expr_to_string cx e msg = (none, []))
    ∧ ((cx.expandInput e).node.isErrMarker = false →
       (cx.expandInput e).node.isStrLit = false →
       ∃ dsp, expr_to_string cx e msg = (none, [{ span := dsp, msg := msg }])) := by
  cases hn : (cx.expandInput e).node with
  | lit l =>
    cases hl : l.node with
    | str s style =>
      refine ⟨?_, ?_⟩
      · intro hmark
        simp [ExprKind.isErrMarker, hn, hl] at hmark
      · intro _ hstr
        simp [ExprKind.isStrLit, hn, hl] at hstr
    | err s =>
      refine ⟨?_, ?_⟩
      · intro _
        simp [expr_to_string, expr_to_spanned_string, hn, hl]
      · intro hmark _
        simp [ExprKind.isErrMarker, hn, hl] at hmark
    | int n =>
      refine ⟨fun hmark => ?_, fun _ _ => ?_⟩
      · simp [ExprKind.isErrMarker, hn, hl] at hmark
      · exact ⟨l.span, by
          simp [expr_to_string, expr_to_spanned_string, ExtCtxt.struct_span_err, hn, hl]⟩
    | boolean b =>
      refine ⟨fun hmark => ?_, fun _ _ => ?_⟩
      · simp [ExprKind.isErrMarker, hn, hl] at hmark
      · exact ⟨l.span, by
          simp [expr_to_string, expr_to_spanned_string, ExtCtxt.struct_span_err, hn, hl]⟩
  | tup es =>
    refine ⟨fun hmark => ?_, fun _ _ => ?_⟩
    · simp [ExprKind.isErrMarker, hn] at hmark
    · exact ⟨(cx.expandInput e).span, by
        simp [expr_to_string, expr_to_spanned_string, ExtCtxt.struct_span_err, hn]⟩
  | err =>
    refine ⟨fun _ => ?_, fun hmark _ => ?_⟩
    · simp [expr_to_string, expr_to_spanned_string, hn]
    · simp [ExprKind.isErrMarker, hn] at hmark
  | other k =>
    refine ⟨fun hmark => ?_, fun _ _ => ?_⟩
    · simp [ExprKind.isErrMarker, hn] at hmark
    · exact ⟨(cx.expandInput e).span, by
        simp [expr_to_string, expr_to_spanned_string, ExtCtxt.struct_span_err, hn]⟩

/-- C8 witness: an error-marked input propagates silently, and a plain
integer literal input draws exactly one fresh diagnostic. -/
theorem expr_to_string_err_propagation_witness :
    (cx0.expandInput errE0).node.isErrMarker = true
    ∧ expr_to_string cx0 errE0 "m" = (none, [])
    ∧ (cx0.expandInput intE0).node.isErrMarker = false
    ∧ (cx0.expandInput intE0).node.isStrLit = false
    ∧ ∃ dsp, expr_to_string cx0 intE0 "m" = (none, [{ span := dsp, msg := "m" }]) :=
  ⟨rfl, (expr_to_string_err_propagation cx0 errE0 "m").1 rfl, rfl, rfl,
    (expr_to_string_err_propagation cx0 intE0 "m").2 rfl rfl⟩

end LibSyntax
